import Mathlib

/-!
Verification of the choot isolation pipeline (src/main.rs).

The program is a sequence of one-shot side-effecting syscalls.  We embed it
shallowly as functions producing the ordered list of syscall requests
(`Effect`) the program issues on its success path, together with the final
`Outcome` (exit, exec, or Rust panic).  Numeric flag constants carry the
Linux values used by the nix crate's bitflags.
-/

namespace Choot

/-! ### Linux constants (values of the nix/libc bitflags used by the source) -/

def MS_RDONLY : Nat := 1
def MS_NOSUID : Nat := 2
def MS_REMOUNT : Nat := 32
def MS_BIND : Nat := 4096
def MS_MOVE : Nat := 8192
def MS_REC : Nat := 16384
def MS_SLAVE : Nat := 524288
def MS_STRICTATIME : Nat := 16777216

def CLONE_NEWNS : Nat := 131072
def CLONE_NEWUTS : Nat := 67108864
def CLONE_NEWIPC : Nat := 134217728
def CLONE_NEWPID : Nat := 536870912

def S_IRUSR : Nat := 256
def S_IWUSR : Nat := 128
def S_IRGRP : Nat := 32
def S_IWGRP : Nat := 16
def S_IROTH : Nat := 4
def S_IWOTH : Nat := 2

def S_IFCHR : Nat := 8192

/-- glibc `makedev`, as used by `nix::sys::stat::makedev`. -/
def makedev (major minor : Nat) : Nat :=
  ((major &&& 0xfffff000) <<< 32) ||| ((major &&& 0xfff) <<< 8) |||
  ((minor &&& 0xffffff00) <<< 12) ||| (minor &&& 0xff)

/-- Rust `Path::join` for the relative literal components this program joins. -/
def pathJoin (t s : String) : String := t ++ "/" ++ s

/-! ### Syscall requests issued by the program -/

inductive Effect where
  | eprintln (msg : String)
  | unshareE (flags : Nat)
  | forkChild
  | mountE (source : Option String) (target : String) (fstype : Option String)
      (flags : Nat) (data : Option String)
  | mknodE (path : String) (kind : Nat) (mode : Nat) (dev : Nat)
  | symlinkE (dest : String) (linkpath : String)
  | chdirE (path : String)
  | chrootE (path : String)
  | execveE (prog : String) (argv : List String) (env : List String)
  deriving DecidableEq

/-- Every effect other than the stderr diagnostic is a privileged operation or
a filesystem mutation request. -/
def isPrivileged : Effect → Bool
  | .eprintln _ => false
  | _ => true

/-! ### Constants and syscall wrappers from src/main.rs -/

def DEFAULT_EXEC : String := "/bin/sh"
def PATH : String := "PATH=/usr/sbin:/usr/bin:/sbin:/bin"

def make_rslave (target : String) : Effect :=
  .mountE none target none (MS_REC ||| MS_SLAVE) none

def bind_mount (source target : String) : Effect :=
  .mountE (some source) target none MS_BIND none

def remount_readonly (target : String) : Effect :=
  .mountE (some target) target none (MS_BIND ||| MS_REMOUNT ||| MS_RDONLY) none

def mount_special (target fstype : String) (flags : Nat) (data : Option String) : Effect :=
  .mountE (some fstype) target (some fstype) flags data

def move_mount (source target : String) : Effect :=
  .mountE (some source) target none MS_MOVE none

def make_chardev (target : String) (mode : Nat) (major minor : Nat) : Effect :=
  .mknodE target S_IFCHR mode (makedev major minor)

def symlink (dest linkpath : String) : Effect :=
  .symlinkE dest linkpath

/-- `unshare_namespaces`: the single unshare request with the four CLONE flags. -/
def unshare_namespaces : List Effect :=
  [.unshareE (CLONE_NEWNS ||| CLONE_NEWPID ||| CLONE_NEWIPC ||| CLONE_NEWUTS)]

/-- `setup_mounts`: the mount requests issued, in program order. -/
def setup_mounts (target : String) (readonly : Bool) : List Effect :=
  [make_rslave "/", bind_mount target target]
  ++ (if readonly then [remount_readonly target] else [])
  ++ [mount_special (pathJoin target "proc") "proc" 0 none,
      mount_special (pathJoin target "sys") "sysfs" 0 none,
      mount_special (pathJoin target "dev") "tmpfs" (MS_NOSUID ||| MS_STRICTATIME)
        (some "mode=755")]

def dev_mode : Nat :=
  S_IRUSR ||| S_IWUSR ||| S_IRGRP ||| S_IWGRP ||| S_IROTH ||| S_IWOTH

/-- `setup_devices`: the mknod and symlink requests issued, in program order. -/
def setup_devices (target : String) : List Effect :=
  [make_chardev (pathJoin target "dev/null") dev_mode 1 3,
   make_chardev (pathJoin target "dev/zero") dev_mode 1 5,
   make_chardev (pathJoin target "dev/full") dev_mode 1 7,
   make_chardev (pathJoin target "dev/random") dev_mode 1 8,
   make_chardev (pathJoin target "dev/urandom") dev_mode 1 9,
   make_chardev (pathJoin target "dev/tty") dev_mode 5 0,
   make_chardev (pathJoin target "dev/ptmx") dev_mode 5 2,
   symlink "/proc/self/fd" (pathJoin target "dev/fd"),
   symlink "/proc/self/fd/0" (pathJoin target "dev/stdin"),
   symlink "/proc/self/fd/1" (pathJoin target "dev/stdout"),
   symlink "/proc/self/fd/2" (pathJoin target "dev/stderr")]

/-! ### Final outcome of a process branch -/

inductive Outcome where
  | exited (code : Nat)
  | execed (prog : String) (argv : List String) (env : List String)
  | panicked (msg : String)
  deriving DecidableEq

/-- A Rust panic terminates the process with exit status 101. -/
def panicExitCode : Nat := 101

/-- The exit status the invoking shell observes for a terminated branch
(`none` when the process image was replaced instead of exiting). -/
def observedExitCode : Outcome → Option Nat
  | .exited n => some (n % 256)
  | .panicked _ => some panicExitCode
  | .execed _ _ _ => none

/-- The environment list built at the execve call site: `HOME`, `SHELL` from
the invoker's environment via `unwrap_or_default`, the fixed `PATH`, and
`TERM` likewise. -/
def buildEnv (shell term : Option String) : List String :=
  ["HOME=/root", "SHELL=" ++ shell.getD "", PATH, "TERM=" ++ term.getD ""]

/-- Same, reading `SHELL` and `TERM` out of the full invoker environment. -/
def buildEnvFrom (envv : String → Option String) : List String :=
  buildEnv (envv "SHELL") (envv "TERM")

/-- `enter_chroot`: chdir, move-mount `.` onto `/`, chroot, then execve
`args[0]`.  Indexing an empty `args` is a Rust panic, which happens after the
three root-transition syscalls have been issued. -/
def enter_chroot (target : String) (args : List String)
    (envv : String → Option String) : List Effect × Outcome :=
  let pre : List Effect := [.chdirE target, move_mount "." "/", .chrootE "."]
  match args with
  | [] => (pre, .panicked "index out of bounds")
  | a0 :: _ => (pre ++ [.execveE a0 args (buildEnvFrom envv)],
      .execed a0 args (buildEnvFrom envv))

/-! ### Process supervisor (parent branch of the fork) -/

inductive WaitStatus where
  | Exited (pid : Nat) (code : Nat)
  | Signaled (pid : Nat) (signal : Nat) (coreDumped : Bool)
  | Stopped (pid : Nat) (signal : Nat)
  | Continued (pid : Nat)
  | StillAlive
  deriving DecidableEq

/-- The parent branch of `fork_and_supervise`: `wait().expect("Wait failed")`
panics when wait returns an error; otherwise a normal child exit code is
propagated and every other wait status maps to `exit(1)`. -/
def fork_and_supervise_parent (w : Except Unit WaitStatus) : Outcome :=
  match w with
  | .error _ => .panicked "Wait failed"
  | .ok (.Exited _ code) => .exited code
  | .ok _ => .exited 1

/-! ### Command-line parsing (external clap crate) -/

inductive ParseOutcome where
  | ok (root : String) (readonly : Bool) (cmdArgs : Option (List String))
  | err
  deriving DecidableEq

/-- Modelled from the spec: trailing command values after the `--` separator;
the external parser reports no value list when zero values are present. -/
def parseTrailing (rest : List String) : Option (List String) :=
  match rest with
  | [] => none
  | c => some c

/-- Modelled from the spec: positional part of the command line — one required
ROOT argument, then an optional trailing command introduced by `--`. -/
def parsePositional (argv : List String) (readonly : Bool) : ParseOutcome :=
  match argv with
  | [] => ParseOutcome.err
  | root :: [] => ParseOutcome.ok root readonly none
  | root :: sep :: rest =>
    if sep = "--" then ParseOutcome.ok root readonly (parseTrailing rest)
    else ParseOutcome.err

/-- Modelled from the spec: command-line parsing is performed by the external
clap crate, whose code is not part of this repository.  Per the spec's CLI
surface: one optional readonly flag, one required positional ROOT, an optional
trailing command after `--`; anything else is a malformed invocation. -/
def parseArgs (argv : List String) : ParseOutcome :=
  match argv with
  | [] => parsePositional [] false
  | flag :: rest =>
    if flag = "-R" ∨ flag = "--readonly" then parsePositional rest true
    else parsePositional (flag :: rest) false

/-- Modelled from the spec: the usage diagnostic the external parser prints on
a malformed invocation. -/
def usageMsg : String := "Usage: choot [-R] ROOT [-- ARG...]"

/-- `args` as computed in `main`: the supplied trailing command, or the
one-element default vector. -/
def argsOf (cmdArgs : Option (List String)) : List String :=
  cmdArgs.getD [DEFAULT_EXEC]

/-- `main`, child branch of the fork, on the success path of every syscall:
parse (exit 2 on malformed invocation, modelled from the spec), euid guard
(exit 1 when not root), then unshare, fork, mounts, devices, root transition.
Returns the ordered syscall-request trace and the final outcome. -/
def chootProgram (argv : List String) (euid : Nat)
    (envv : String → Option String) : List Effect × Outcome :=
  match parseArgs argv with
  | ParseOutcome.err => ([.eprintln usageMsg], .exited 2)
  | ParseOutcome.ok root readonly cmdArgs =>
    if euid ≠ 0 then ([.eprintln "Must be run as root"], .exited 1)
    else
      let args := argsOf cmdArgs
      let ec := enter_chroot root args envv
      (unshare_namespaces ++ [.forkChild] ++ setup_mounts root readonly
        ++ setup_devices root ++ ec.1, ec.2)

end Choot

open Choot

/-! ### Helper lemmas about the spec-modelled parser -/

lemma parseTrailing_some (rest c : List String)
    (h : parseTrailing rest = some c) : c ≠ [] := by
  cases rest with
  | nil => simp [parseTrailing] at h
  | cons a as =>
    simp [parseTrailing] at h
    subst h
    simp

lemma parsePositional_some (argv : List String) (ro : Bool) (r : String)
    (ro2 : Bool) (c : List String)
    (h : parsePositional argv ro = ParseOutcome.ok r ro2 (some c)) : c ≠ [] := by
  match argv with
  | [] => simp [parsePositional] at h
  | [root] => simp [parsePositional] at h
  | root :: sep :: rest =>
    simp only [parsePositional] at h
    split at h
    · simp only [ParseOutcome.ok.injEq] at h
      exact parseTrailing_some rest c h.2.2
    · exact absurd h (by simp)

lemma parseArgs_cmd_ne_nil (argv : List String) (r : String) (ro : Bool)
    (c : List String)
    (h : parseArgs argv = ParseOutcome.ok r ro (some c)) : c ≠ [] := by
  cases argv with
  | nil => exact parsePositional_some [] false r ro c h
  | cons f rest =>
    simp only [parseArgs] at h
    split at h
    · exact parsePositional_some rest true r ro c h
    · exact parsePositional_some (f :: rest) false r ro c h

/-! ### Claim theorems -/

/-- C1 counterexample: the claim says a failing wait makes the supervisor exit
with the fallback code 1; in the code `wait().expect("Wait failed")` panics
instead, so the process terminates with the Rust panic status 101, not 1. -/
theorem c1_wait_failure_counterexample :
    fork_and_supervise_parent (Except.error ()) ≠ Outcome.exited 1 ∧
    observedExitCode (fork_and_supervise_parent (Except.error ())) = some 101 := by
  constructor
  · intro h
    exact absurd h (by simp [fork_and_supervise_parent])
  · rfl

/-- C1 (amended): if the child exits normally with code N (0 ≤ N ≤ 255) the
supervisor exits with exactly N; if the child was killed by a signal the
supervisor exits with the fallback code 1; if the wait operation itself fails
the supervisor panics (terminating with the Rust panic status 101), not 1. -/
theorem c1_supervisor_exit_propagation (p n s : Nat) (c : Bool) (e : Unit)
    (h : n ≤ 255) :
    observedExitCode (fork_and_supervise_parent
      (Except.ok (WaitStatus.Exited p n))) = some n ∧
    fork_and_supervise_parent (Except.ok (WaitStatus.Signaled p s c)) =
      Outcome.exited 1 ∧
    fork_and_supervise_parent (Except.error e) = Outcome.panicked "Wait failed" ∧
    observedExitCode (fork_and_supervise_parent (Except.error e)) = some 101 := by
  refine ⟨?_, rfl, rfl, rfl⟩
  simp [observedExitCode, fork_and_supervise_parent,
    Nat.mod_eq_of_lt (Nat.lt_succ_of_le h)]

theorem c1_supervisor_exit_propagation_witness :
    (7 : Nat) ≤ 255 ∧
    observedExitCode (fork_and_supervise_parent
      (Except.ok (WaitStatus.Exited 42 7))) = some 7 :=
  ⟨by decide, (c1_supervisor_exit_propagation 42 7 9 false () (by decide)).1⟩

/-- C2: for every invocation that parses (any arguments, any environment)
whose effective uid is not 0, the program prints the diagnostic, exits with
code 1, and issues no privileged or filesystem-mutating request at all. -/
theorem c2_privilege_guard (argv : List String) (euid : Nat)
    (envv : String → Option String) (root : String) (ro : Bool)
    (cmd : Option (List String))
    (hp : parseArgs argv = ParseOutcome.ok root ro cmd) (h : euid ≠ 0) :
    chootProgram argv euid envv =
      ([Effect.eprintln "Must be run as root"], Outcome.exited 1) ∧
    ∀ e ∈ (chootProgram argv euid envv).1, isPrivileged e = false := by
  have heq : chootProgram argv euid envv =
      ([Effect.eprintln "Must be run as root"], Outcome.exited 1) := by
    unfold chootProgram
    rw [hp]
    simp [h]
  refine ⟨heq, ?_⟩
  rw [heq]
  intro e he
  simp only [List.mem_singleton] at he
  subst he
  rfl

theorem c2_privilege_guard_witness :
    parseArgs ["rootfs"] = ParseOutcome.ok "rootfs" false none ∧
    (1000 : Nat) ≠ 0 ∧
    chootProgram ["rootfs"] 1000 (fun _ => none) =
      ([Effect.eprintln "Must be run as root"], Outcome.exited 1) :=
  ⟨by decide, by decide,
   (c2_privilege_guard ["rootfs"] 1000 (fun _ => none) "rootfs" false none
     (by decide) (by decide)).1⟩

/-- C3: for every target and readonly setting, the mount stage issues exactly,
in order: rslave on "/" (MS_REC|MS_SLAVE = 540672), bind of target onto itself
(MS_BIND = 4096), the readonly remount (MS_BIND|MS_REMOUNT|MS_RDONLY = 4129)
only when readonly is set, proc at target/proc, sysfs at target/sys, and a
tmpfs at target/dev with MS_NOSUID|MS_STRICTATIME = 16777218 and data
mode=755. -/
theorem c3_mount_pipeline (t : String) (ro : Bool) :
    setup_mounts t ro =
      [Effect.mountE none "/" none 540672 none,
       Effect.mountE (some t) t none 4096 none]
      ++ (if ro then [Effect.mountE (some t) t none 4129 none] else [])
      ++ [Effect.mountE (some "proc") (pathJoin t "proc") (some "proc") 0 none,
          Effect.mountE (some "sysfs") (pathJoin t "sys") (some "sysfs") 0 none,
          Effect.mountE (some "tmpfs") (pathJoin t "dev") (some "tmpfs")
            16777218 (some "mode=755")] := by
  cases ro <;> rfl

/-- C4: the device stage issues exactly the seven character-device mknod
requests (type S_IFCHR = 8192, mode 0666 = 438, device numbers makedev of the
claimed major/minor pairs) followed by exactly the four symlink requests, in
the stated fixed order, with no dependence on anything but the target path. -/
theorem c4_device_table (t : String) :
    setup_devices t =
      [Effect.mknodE (pathJoin t "dev/null") 8192 438 (makedev 1 3),
       Effect.mknodE (pathJoin t "dev/zero") 8192 438 (makedev 1 5),
       Effect.mknodE (pathJoin t "dev/full") 8192 438 (makedev 1 7),
       Effect.mknodE (pathJoin t "dev/random") 8192 438 (makedev 1 8),
       Effect.mknodE (pathJoin t "dev/urandom") 8192 438 (makedev 1 9),
       Effect.mknodE (pathJoin t "dev/tty") 8192 438 (makedev 5 0),
       Effect.mknodE (pathJoin t "dev/ptmx") 8192 438 (makedev 5 2),
       Effect.symlinkE "/proc/self/fd" (pathJoin t "dev/fd"),
       Effect.symlinkE "/proc/self/fd/0" (pathJoin t "dev/stdin"),
       Effect.symlinkE "/proc/self/fd/1" (pathJoin t "dev/stdout"),
       Effect.symlinkE "/proc/self/fd/2" (pathJoin t "dev/stderr")] ∧
    makedev 1 3 = 259 ∧ makedev 1 5 = 261 ∧ makedev 1 7 = 263 ∧
    makedev 1 8 = 264 ∧ makedev 1 9 = 265 ∧ makedev 5 0 = 1280 ∧
    makedev 5 2 = 1282 :=
  ⟨rfl, by decide⟩

/-- C5: the root transition issues exactly chdir(target), the MS_MOVE (8192)
mount of "." onto "/", chroot("."), and then the execve of args[0] — nothing,
in particular no mount or device request, after the chroot. -/
theorem c5_root_transition (t a0 : String) (rest : List String)
    (envv : String → Option String) :
    enter_chroot t (a0 :: rest) envv =
      ([Effect.chdirE t, Effect.mountE (some ".") "/" none 8192 none,
        Effect.chrootE ".",
        Effect.execveE a0 (a0 :: rest) (buildEnvFrom envv)],
       Outcome.execed a0 (a0 :: rest) (buildEnvFrom envv)) := rfl

/-- C6: the environment handed to the executed command is exactly the four
variables HOME=/root, SHELL from the invoker (defaulted), the fixed PATH, and
TERM from the invoker (defaulted); consequently any two invoker environments
agreeing on SHELL and TERM yield the identical environment, regardless of
every other variable. -/
theorem c6_minimal_env (envv : String → Option String) :
    buildEnvFrom envv =
      ["HOME=/root", "SHELL=" ++ (envv "SHELL").getD "",
       "PATH=/usr/sbin:/usr/bin:/sbin:/bin",
       "TERM=" ++ (envv "TERM").getD ""] ∧
    (buildEnvFrom envv).length = 4 ∧
    ∀ envv2 : String → Option String, envv "SHELL" = envv2 "SHELL" →
      envv "TERM" = envv2 "TERM" → buildEnvFrom envv = buildEnvFrom envv2 := by
  refine ⟨rfl, rfl, ?_⟩
  intro e2 hs ht
  unfold buildEnvFrom
  rw [hs, ht]

theorem c6_minimal_env_witness :
    buildEnvFrom (fun k => if k = "SHELL" then some "/bin/bash"
      else if k = "HOSTSECRET" then some "leak" else none) =
    buildEnvFrom (fun k => if k = "SHELL" then some "/bin/bash" else none) :=
  (c6_minimal_env _).2.2 _ (by decide) (by decide)

/-- C7: when SHELL (resp. TERM) is unset in the invoker's environment, the
environment passed to the command still contains the variable with an empty
value rather than omitting it. -/
theorem c7_empty_default (envv : String → Option String) :
    (envv "SHELL" = none → "SHELL=" ∈ buildEnvFrom envv) ∧
    (envv "TERM" = none → "TERM=" ∈ buildEnvFrom envv) := by
  constructor
  · intro h
    unfold buildEnvFrom buildEnv
    rw [h]
    exact List.Mem.tail _ (List.Mem.head _)
  · intro h
    unfold buildEnvFrom buildEnv
    rw [h]
    exact List.Mem.tail _ (List.Mem.tail _ (List.Mem.tail _ (List.Mem.head _)))

theorem c7_empty_default_witness :
    "SHELL=" ∈ buildEnvFrom (fun _ => none) ∧
    "TERM=" ∈ buildEnvFrom (fun _ => none) :=
  ⟨(c7_empty_default (fun _ => none)).1 rfl,
   (c7_empty_default (fun _ => none)).2 rfl⟩

/-- C8: a malformed invocation (one the parser rejects, e.g. no target root)
prints the usage message, exits with code 2, and issues no privileged
request. -/
theorem c8_malformed_invocation (argv : List String) (euid : Nat)
    (envv : String → Option String) (h : parseArgs argv = ParseOutcome.err) :
    chootProgram argv euid envv =
      ([Effect.eprintln usageMsg], Outcome.exited 2) ∧
    ∀ e ∈ (chootProgram argv euid envv).1, isPrivileged e = false := by
  have heq : chootProgram argv euid envv =
      ([Effect.eprintln usageMsg], Outcome.exited 2) := by
    unfold chootProgram
    rw [h]
  refine ⟨heq, ?_⟩
  rw [heq]
  intro e he
  simp only [List.mem_singleton] at he
  subst he
  rfl

theorem c8_malformed_invocation_witness :
    parseArgs [] = ParseOutcome.err ∧
    chootProgram [] 0 (fun _ => none) =
      ([Effect.eprintln usageMsg], Outcome.exited 2) :=
  ⟨rfl, (c8_malformed_invocation [] 0 (fun _ => none) rfl).1⟩

/-- C9: when the invocation supplies no trailing command, the root transition
execs the single-element vector [/bin/sh]; when it supplies one, the exec
argument vector is exactly the supplied strings in order. -/
theorem c9_default_command (argv : List String) (root : String) (ro : Bool)
    (cmd : Option (List String)) (envv : String → Option String)
    (h : parseArgs argv = ParseOutcome.ok root ro cmd) :
    (cmd = none →
      (chootProgram argv 0 envv).2 =
        Outcome.execed "/bin/sh" ["/bin/sh"] (buildEnvFrom envv)) ∧
    (∀ a rest, cmd = some (a :: rest) →
      (chootProgram argv 0 envv).2 =
        Outcome.execed a (a :: rest) (buildEnvFrom envv)) := by
  constructor
  · intro hc
    subst hc
    unfold chootProgram
    rw [h]
    simp [argsOf, DEFAULT_EXEC, enter_chroot]
  · intro a rest hc
    subst hc
    unfold chootProgram
    rw [h]
    simp [argsOf, enter_chroot]

theorem c9_default_command_witness :
    parseArgs ["rootfs"] = ParseOutcome.ok "rootfs" false none ∧
    (chootProgram ["rootfs"] 0 (fun _ => none)).2 =
      Outcome.execed "/bin/sh" ["/bin/sh"] (buildEnvFrom (fun _ => none)) :=
  ⟨rfl, (c9_default_command ["rootfs"] "rootfs" false none (fun _ => none)
    rfl).1 rfl⟩

/-- C10: the argument vector reaching the final execve is never empty — the
parser never yields an empty supplied command, and the default is the
one-element vector — so the program can never end in the index-out-of-bounds
panic of args[0]. -/
theorem c10_exec_argv_nonempty (argv : List String) (euid : Nat)
    (envv : String → Option String) :
    (∀ root ro cmd, parseArgs argv = ParseOutcome.ok root ro cmd →
      argsOf cmd ≠ []) ∧
    (∀ m, (chootProgram argv euid envv).2 ≠ Outcome.panicked m) := by
  have hargs : ∀ root ro cmd, parseArgs argv = ParseOutcome.ok root ro cmd →
      argsOf cmd ≠ [] := by
    intro root ro cmd h
    cases cmd with
    | none => simp [argsOf, DEFAULT_EXEC]
    | some c =>
      have hc := parseArgs_cmd_ne_nil argv root ro c h
      simpa [argsOf] using hc
  refine ⟨hargs, ?_⟩
  intro m
  unfold chootProgram
  cases hp : parseArgs argv with
  | err => simp
  | ok root ro cmd =>
    by_cases he : euid ≠ 0
    · simp [he]
    · simp only [he, if_false, ite_false]
      obtain ⟨a, rest, har⟩ := List.exists_cons_of_ne_nil (hargs root ro cmd hp)
      simp [har, enter_chroot]

theorem c10_exec_argv_nonempty_witness :
    argsOf none ≠ [] ∧
    (chootProgram ["rootfs"] 0 (fun _ => none)).2 ≠
      Outcome.panicked "index out of bounds" :=
  ⟨(c10_exec_argv_nonempty ["rootfs"] 0 (fun _ => none)).1 "rootfs" false none
     rfl,
   (c10_exec_argv_nonempty ["rootfs"] 0 (fun _ => none)).2
     "index out of bounds"⟩
